import Mathlib

/-!
Shallow embedding of `paddlenlp/trl/extras/dataset_formatting.py`.

The module inspects a dataset's declared feature schema, matches it against
three fixed templates (`chatml`, `instruction`, `paddlenlp`), and returns a
formatting closure that applies a chat template to each record.

Modelling choices:
* Python's dynamic values (`examples`, message records, batches) are modelled
  by the inductive type `PyVal` (strings, dicts with string keys, lists).
* `dataset.features` is modelled as an association list from field name to
  `FeatureType`; Python dict equality is `featuresEqDict` (key-set plus
  per-key value equality, order-insensitive).
* `tokenizer.apply_chat_template(conv, tokenize=...)` is an opaque renderer
  of type `PyVal → Bool → String`; the formatters are parametrised by it.
* A Python closure becomes a Lean function of the captured arguments; a
  Python run-time error (KeyError, IndexError, indexing a non-list) becomes
  `none`, a normal return becomes `some`.
* `get_formatting_func_from_dataset` returns the chosen formatter as a
  `FormatterChoice` tag (a defunctionalised closure) paired with the list of
  informational log lines it emitted.
-/

namespace DatasetFormatting

/-- A dynamic Python value: a string, a dict with string keys, or a list. -/
inductive PyVal where
  | str (s : String)
  | dict (entries : List (String × PyVal))
  | list (items : List PyVal)

/-- Python `isinstance(v, list)`. -/
def PyVal.isList : PyVal → Bool
  | .list _ => true
  | _ => false

/-- First-match lookup in a dict's entry list. -/
def lookupEntries : List (String × PyVal) → String → Option PyVal
  | [], _ => none
  | (k, v) :: rest, key => if k = key then some v else lookupEntries rest key

/-- Python `examples[key]` on a dict; `none` models the KeyError / TypeError
raised when the key is missing or the value is not a dict. -/
def pyGet : PyVal → String → Option PyVal
  | .dict entries, key => lookupEntries entries key
  | _, _ => none

/-- Python `v[i]` for integer `i`; `none` models the IndexError / TypeError
raised when the index is out of range or the value is not a list. -/
def pyIndex : PyVal → Nat → Option PyVal
  | .list items, i => items.get? i
  | _, _ => none

/-- A declared feature type of a dataset column, as compared against the
entries of `FORMAT_MAPPING`: a `Value(dtype=...)` leaf, a list of a record of
named `Value` leaves (the only composite shape the module ever compares, the
shape of `FORMAT_MAPPING["chatml"]`), or an opaque other type. -/
inductive FeatureType where
  | value (dtype : String)
  | listOfRecord (fields : List (String × String))
  | other (tag : Nat)
deriving DecidableEq

/-- `FORMAT_MAPPING["chatml"]`:
`[{"content": Value(dtype="string"), "role": Value(dtype="string")}]`. -/
def chatmlType : FeatureType :=
  .listOfRecord [("content", "string"), ("role", "string")]

/-- `FORMAT_MAPPING["instruction"]`:
`{"completion": Value(dtype="string"), "prompt": Value(dtype="string")}`. -/
def instructionFeatures : List (String × FeatureType) :=
  [("completion", .value "string"), ("prompt", .value "string")]

/-- `FORMAT_MAPPING["paddlenlp"]`:
`{"src": Value(dtype="string"), "tgt": Value(dtype="string")}`. -/
def paddlenlpFeatures : List (String × FeatureType) :=
  [("src", .value "string"), ("tgt", .value "string")]

/-- First-match lookup of a field's declared type, `dataset.features[key]`;
`isSome` of this is Python's `key in dataset.features`. -/
def featuresGet : List (String × FeatureType) → String → Option FeatureType
  | [], _ => none
  | (k, v) :: rest, key => if k = key then some v else featuresGet rest key

/-- Python dict equality between two feature mappings: every key of each side
is present in the other with an equal value (order-insensitive). -/
def featuresEqDict (a b : List (String × FeatureType)) : Bool :=
  a.all (fun p => decide (featuresGet b p.1 = some p.2)) &&
    b.all (fun p => decide (featuresGet a p.1 = some p.2))

/-- A `datasets.Dataset` as the matcher sees it: its declared features. -/
structure Dataset where
  features : List (String × FeatureType)

/-- The argument of `get_formatting_func_from_dataset`: either an actual
`Dataset` or an arbitrary other object (which fails `isinstance(dataset,
Dataset)`). -/
inductive MatcherInput where
  | dataset (d : Dataset)
  | notADataset (tag : Nat)

/-- The three formatter closures the matcher can return, defunctionalised:
the constructor records which builder was called and the field it bound. -/
inductive FormatterChoice where
  | conversations (field : String)
  | instruction
  | paddlenlp
deriving DecidableEq

/-- `conversations_formatting_function(tokenizer, messages_field)`'s inner
`format_dataset(examples)`.  Reads `examples[messages_field]`; inspects
element `[0]` to decide batched vs scalar (so an empty list raises, `none`);
if the first element is a list, renders every element in order, else renders
the whole field value as one conversation. -/
def conversations_formatting_function (render : PyVal → Bool → String)
    (messages_field : String) (examples : PyVal) : Option PyVal :=
  match pyGet examples messages_field with
  | some (PyVal.list items) =>
    match items with
    | [] => none
    | first :: _ =>
      if first.isList then
        some (PyVal.list (items.map fun x => PyVal.str (render x false)))
      else
        some (PyVal.str (render (PyVal.list items) false))
  | _ => none

/-- `converted_sample`: the two-message conversation
`[{"role": "user", "content": u}, {"role": "assistant", "content": a}]`. -/
def convertedSample (u a : PyVal) : PyVal :=
  PyVal.list
    [PyVal.dict [("role", PyVal.str "user"), ("content", u)],
     PyVal.dict [("role", PyVal.str "assistant"), ("content", a)]]

/-- Evaluate `f` at every element, failing if any evaluation fails; models a
Python loop appending to `output_texts` where an iteration may raise. -/
def traverseOption {α β : Type} (f : α → Option β) : List α → Option (List β)
  | [] => some []
  | a :: as =>
    match f a, traverseOption f as with
    | some b, some bs => some (b :: bs)
    | _, _ => none

/-- `instructions_formatting_function(tokenizer)`'s inner
`format_dataset(examples)`.  If `examples["prompt"]` is a list, loops
`i in range(len(prompt))` building `converted_sample` from `prompt[i]` and
`examples["completion"][i]` and rendering each; else renders the single
`converted_sample` built from the scalar `prompt` and `completion`. -/
def instructions_formatting_function (render : PyVal → Bool → String)
    (examples : PyVal) : Option PyVal :=
  match pyGet examples "prompt" with
  | some (PyVal.list prompts) =>
    match pyGet examples "completion" with
    | some completion =>
      (traverseOption
        (fun i =>
          match prompts.get? i, pyIndex completion i with
          | some p, some c =>
            some (PyVal.str (render (convertedSample p c) false))
          | _, _ => none)
        (List.range prompts.length)).map PyVal.list
    | none => none
  | some prompt =>
    match pyGet examples "completion" with
    | some completion =>
      some (PyVal.str (render (convertedSample prompt completion) false))
    | none => none
  | none => none

/-- `paddlenlp_instructions_formatting_function(tokenizer)`'s inner
`format_dataset(examples)`: identical to the instruction variant but reads
fields `src` and `tgt`. -/
def paddlenlp_instructions_formatting_function (render : PyVal → Bool → String)
    (examples : PyVal) : Option PyVal :=
  match pyGet examples "src" with
  | some (PyVal.list srcs) =>
    match pyGet examples "tgt" with
    | some tgt =>
      (traverseOption
        (fun i =>
          match srcs.get? i, pyIndex tgt i with
          | some s, some t =>
            some (PyVal.str (render (convertedSample s t) false))
          | _, _ => none)
        (List.range srcs.length)).map PyVal.list
    | none => none
  | some src =>
    match pyGet examples "tgt" with
    | some tgt =>
      some (PyVal.str (render (convertedSample src tgt) false))
    | none => none
  | none => none

/-- Interpret a `FormatterChoice` tag back into the closure it stands for. -/
def applyFormatter (render : PyVal → Bool → String) :
    FormatterChoice → PyVal → Option PyVal
  | .conversations field => conversations_formatting_function render field
  | .instruction => instructions_formatting_function render
  | .paddlenlp => paddlenlp_instructions_formatting_function render

/-- `get_formatting_func_from_dataset(dataset, tokenizer)`, returning the
chosen formatter (or `none`) together with the `logging.info` lines emitted.
The branch shape mirrors the source exactly: the `messages` check is a
separate `if` whose fall-through continues; the `conversations` check heads
an `if/elif/elif` chain, so once `"conversations" in features` holds, the
`instruction` and `paddlenlp` comparisons are never reached; every inner
mismatch falls through to `return None`. -/
def get_formatting_func_from_dataset (input : MatcherInput) :
    Option FormatterChoice × List String :=
  match input with
  | .dataset d =>
    -- `if "messages" in dataset.features: if features["messages"] == chatml`
    -- (both conditions hold iff the lookup returns exactly the chatml type)
    if featuresGet d.features "messages" = some chatmlType then
      (some (.conversations "messages"), ["Formatting dataset with chatml format"])
    else if (featuresGet d.features "conversations").isSome then
      if featuresGet d.features "conversations" = some chatmlType then
        (some (.conversations "conversations"),
          ["Formatting dataset with chatml format"])
      else
        (none, [])
    else if featuresEqDict d.features instructionFeatures then
      (some .instruction, ["Formatting dataset with instruction format"])
    else if featuresEqDict d.features paddlenlpFeatures then
      (some .paddlenlp, [])
    else
      (none, [])
  | .notADataset _ => (none, [])

instance : Inhabited PyVal := ⟨PyVal.str ""⟩

/-! ### Concrete renderers and inputs used by witnesses -/

/-- A concrete renderer: returns template text, or a distinct marker when
token output is requested. -/
def demoRender : PyVal → Bool → String := fun _ t => if t then "TOKENS" else "TEXT"

/-- A second renderer that agrees with `demoRender` at `tokenize = false` but
differs at `tokenize = true`. -/
def demoRenderB : PyVal → Bool → String := fun _ t => if t then "OTHER" else "TEXT"

/-- A one-message conversation record `{"role": "user", "content": "x"}`. -/
def demoMsg : PyVal := PyVal.dict [("role", PyVal.str "user"), ("content", PyVal.str "x")]

/-- A batched `examples` for the conversations formatter: two conversations. -/
def demoConvBatch : PyVal :=
  PyVal.dict [("messages", PyVal.list [PyVal.list [demoMsg], PyVal.list [demoMsg]])]

/-- An `examples` whose `messages` field is an empty list. -/
def demoEmptyConv : PyVal := PyVal.dict [("messages", PyVal.list [])]

/-- A batched `examples` for the instruction formatter. -/
def demoInstrBatch : PyVal :=
  PyVal.dict
    [("prompt", PyVal.list [PyVal.str "a", PyVal.str "b"]),
     ("completion", PyVal.list [PyVal.str "x", PyVal.str "y"])]

/-- A batched `examples` for the source-target formatter. -/
def demoPaddleBatch : PyVal :=
  PyVal.dict
    [("src", PyVal.list [PyVal.str "a", PyVal.str "b"]),
     ("tgt", PyVal.list [PyVal.str "x", PyVal.str "y"])]

/-- A scalar `examples` for the source-target formatter. -/
def demoPaddleScalar : PyVal :=
  PyVal.dict [("src", PyVal.str "hello"), ("tgt", PyVal.str "hi")]

/-- Like `demoInstrBatch` but with an extra `completion` entry past the
length of `prompt`. -/
def demoInstrBatchLonger : PyVal :=
  PyVal.dict
    [("prompt", PyVal.list [PyVal.str "a", PyVal.str "b"]),
     ("completion", PyVal.list [PyVal.str "x", PyVal.str "y", PyVal.str "EXTRA"])]

/-- Like `demoPaddleBatch` but with an extra `tgt` entry past the length of
`src`. -/
def demoPaddleBatchLonger : PyVal :=
  PyVal.dict
    [("src", PyVal.list [PyVal.str "a", PyVal.str "b"]),
     ("tgt", PyVal.list [PyVal.str "x", PyVal.str "y", PyVal.str "EXTRA"])]

/-- A feature mapping matching none of the three templates. -/
def demoUnknownFeatures : List (String × FeatureType) := [("text", .value "string")]

/-- A feature mapping whose `messages` field has the chatml type and whose
`conversations` field has a different type. -/
def demoMessagesAndBadConversations : List (String × FeatureType) :=
  [("messages", chatmlType), ("conversations", .value "string")]

/-- A feature mapping where both `messages` and `conversations` have the
chatml type. -/
def demoMessagesAndConversations : List (String × FeatureType) :=
  [("messages", chatmlType), ("conversations", chatmlType)]

/-- A feature mapping with a mismatched `conversations` field and no
`messages` field, alongside instruction-shaped columns. -/
def demoConvMismatchFeatures : List (String × FeatureType) :=
  [("conversations", .value "string"),
   ("completion", .value "string"), ("prompt", .value "string")]

/-- The instruction schema written in the opposite key order. -/
def demoInstrFeaturesReordered : List (String × FeatureType) :=
  [("prompt", .value "string"), ("completion", .value "string")]

/-! ### Helper lemmas -/

theorem traverseOption_congr {α β : Type} (f g : α → Option β) (l : List α)
    (h : ∀ a ∈ l, f a = g a) : traverseOption f l = traverseOption g l := by
  induction l with
  | nil => rfl
  | cons a as ih =>
    simp only [traverseOption]
    rw [h a (List.mem_cons_self a as),
      ih fun x hx => h x (List.mem_cons_of_mem a hx)]

theorem traverseOption_eq_map {α β : Type} (f : α → Option β) (g : α → β)
    (l : List α) (h : ∀ a ∈ l, f a = some (g a)) :
    traverseOption f l = some (l.map g) := by
  induction l with
  | nil => rfl
  | cons a as ih =>
    simp only [traverseOption, List.map_cons]
    rw [h a (List.mem_cons_self a as),
      ih fun x hx => h x (List.mem_cons_of_mem a hx)]

theorem traverseOption_length {α β : Type} (f : α → Option β) (l : List α)
    (bs : List β) (h : traverseOption f l = some bs) : bs.length = l.length := by
  induction l generalizing bs with
  | nil =>
    simp only [traverseOption, Option.some.injEq] at h
    rw [← h]
    rfl
  | cons a as ih =>
    simp only [traverseOption] at h
    cases hfa : f a with
    | none => rw [hfa] at h; exact absurd h (by simp)
    | some b =>
      cases hrest : traverseOption f as with
      | none => rw [hfa, hrest] at h; exact absurd h (by simp)
      | some bs2 =>
        rw [hfa, hrest] at h
        simp only [Option.some.injEq] at h
        rw [← h, List.length_cons, ih bs2 hrest]
        rfl

/-- The batched loop of the two pair formatters: when the second field is a
list at least as long as the first, the loop over `range` renders the zipped
pairs in index order. -/
theorem traverseOption_range_pair (render : PyVal → Bool → String)
    (ps cs : List PyVal) (hlen : ps.length ≤ cs.length) :
    traverseOption
      (fun i =>
        match ps.get? i, pyIndex (PyVal.list cs) i with
        | some p, some c => some (PyVal.str (render (convertedSample p c) false))
        | _, _ => none)
      (List.range ps.length)
    = some ((ps.zip cs).map fun pc =>
        PyVal.str (render (convertedSample pc.1 pc.2) false)) := by
  rw [traverseOption_eq_map
    (fun i =>
      match ps.get? i, pyIndex (PyVal.list cs) i with
      | some p, some c => some (PyVal.str (render (convertedSample p c) false))
      | _, _ => none)
    (fun i => PyVal.str (render (convertedSample ps[i]! cs[i]!) false))
    (List.range ps.length) ?_]
  · congr 1
    apply List.ext_getElem
    · simp [Nat.min_eq_left hlen]
    · intro i h₁ h₂
      simp only [List.getElem_map, List.getElem_range, List.getElem_zip]
      have hip : i < ps.length := by simpa using h₁
      have hic : i < cs.length := Nat.lt_of_lt_of_le hip hlen
      rw [getElem!_pos ps i hip, getElem!_pos cs i hic]
  · intro i hi
    have hip : i < ps.length := List.mem_range.mp hi
    have hic : i < cs.length := Nat.lt_of_lt_of_le hip hlen
    simp only [pyIndex, List.get?_eq_getElem?, List.getElem?_eq_getElem hip,
      List.getElem?_eq_getElem hic]
    rw [getElem!_pos ps i hip, getElem!_pos cs i hic]

theorem mem_of_featuresGet_eq_some (l : List (String × FeatureType))
    (k : String) (v : FeatureType) (h : featuresGet l k = some v) : (k, v) ∈ l := by
  induction l with
  | nil => simp [featuresGet] at h
  | cons p rest ih =>
    obtain ⟨k', v'⟩ := p
    simp only [featuresGet] at h
    by_cases hk : k' = k
    · rw [if_pos hk] at h
      simp only [Option.some.injEq] at h
      subst hk; subst h
      exact List.mem_cons_self _ _
    · rw [if_neg hk] at h
      exact List.mem_cons_of_mem _ (ih h)

/-- Python-dict equality makes lookup agree at every key. -/
theorem featuresGet_eq_of_eqDict (a b : List (String × FeatureType))
    (h : featuresEqDict a b = true) (k : String) :
    featuresGet a k = featuresGet b k := by
  unfold featuresEqDict at h
  rw [Bool.and_eq_true, List.all_eq_true, List.all_eq_true] at h
  obtain ⟨h1, h2⟩ := h
  cases hak : featuresGet a k with
  | some v =>
    have hmem := mem_of_featuresGet_eq_some a k v hak
    have := of_decide_eq_true (h1 (k, v) hmem)
    exact this.symm
  | none =>
    cases hbk : featuresGet b k with
    | none => rfl
    | some w =>
      have hmem := mem_of_featuresGet_eq_some b k w hbk
      have := of_decide_eq_true (h2 (k, w) hmem)
      rw [hak] at this
      exact absurd this (by simp)

/-- Batched conversations formatting: a nonempty batch whose first row is a
list is rendered row by row, in order. -/
theorem conversations_formatting_batched (render : PyVal → Bool → String)
    (field : String) (ex : PyVal) (first : PyVal) (rest : List PyVal)
    (hget : pyGet ex field = some (PyVal.list (first :: rest)))
    (hfirst : first.isList = true) :
    conversations_formatting_function render field ex
      = some (PyVal.list ((first :: rest).map fun x => PyVal.str (render x false))) := by
  unfold conversations_formatting_function
  simp [hget, hfirst]

/-- Batched instruction formatting: a `prompt` list together with a
`completion` list at least as long renders the zipped pairs in order. -/
theorem instructions_formatting_batched (render : PyVal → Bool → String)
    (ex : PyVal) (ps cs : List PyVal)
    (hp : pyGet ex "prompt" = some (PyVal.list ps))
    (hc : pyGet ex "completion" = some (PyVal.list cs))
    (hlen : ps.length ≤ cs.length) :
    instructions_formatting_function render ex
      = some (PyVal.list ((ps.zip cs).map fun pc =>
          PyVal.str (render (convertedSample pc.1 pc.2) false))) := by
  unfold instructions_formatting_function
  simp only [hp, hc]
  rw [traverseOption_range_pair render ps cs hlen]
  rfl

/-- Batched source-target formatting: a `src` list together with a `tgt`
list at least as long renders the zipped pairs in order. -/
theorem paddlenlp_formatting_batched (render : PyVal → Bool → String)
    (ex : PyVal) (ss ts : List PyVal)
    (hs : pyGet ex "src" = some (PyVal.list ss))
    (ht : pyGet ex "tgt" = some (PyVal.list ts))
    (hlen : ss.length ≤ ts.length) :
    paddlenlp_instructions_formatting_function render ex
      = some (PyVal.list ((ss.zip ts).map fun st =>
          PyVal.str (render (convertedSample st.1 st.2) false))) := by
  unfold paddlenlp_instructions_formatting_function
  simp only [hs, ht]
  rw [traverseOption_range_pair render ss ts hlen]
  rfl

/-! ### Claim theorems -/

/-- C1 counterexample: a dataset whose `conversations` field has a
non-chatml type but whose `messages` field matches the chatml template makes
the matcher return the `messages` conversations formatter, not absent — so
the claim's universal statement (absent for every dataset with a mismatched
`conversations` field) is false as stated. -/
theorem c1_counterexample :
    featuresGet demoMessagesAndBadConversations "conversations"
        = some (FeatureType.value "string")
  ∧ FeatureType.value "string" ≠ chatmlType
  ∧ (get_formatting_func_from_dataset
        (.dataset ⟨demoMessagesAndBadConversations⟩)).1
      = some (FormatterChoice.conversations "messages") := by decide

/-- C1 (amended): if the schema has a `conversations` field whose type is not
the chatml template, and the `messages` check did not already match, the
matcher returns absent with no log — the `conversations` membership check
guards the instruction and source-target comparisons, which are never
reached. -/
theorem c1_conversations_guard (d : Dataset) (t : FeatureType)
    (hc : featuresGet d.features "conversations" = some t)
    (hne : t ≠ chatmlType)
    (hm : featuresGet d.features "messages" ≠ some chatmlType) :
    get_formatting_func_from_dataset (.dataset d) = (none, []) := by
  simp only [get_formatting_func_from_dataset]
  rw [if_neg hm,
    if_pos (show (featuresGet d.features "conversations").isSome = true by
      rw [hc]; rfl),
    if_neg (show ¬featuresGet d.features "conversations" = some chatmlType by
      rw [hc]
      intro hcontra
      exact hne (Option.some.inj hcontra))]

/-- C1 witness: a schema with a string-typed `conversations` field and
instruction-shaped columns returns absent. -/
theorem c1_witness :
    featuresGet demoConvMismatchFeatures "conversations"
        = some (FeatureType.value "string")
  ∧ FeatureType.value "string" ≠ chatmlType
  ∧ featuresGet demoConvMismatchFeatures "messages" ≠ some chatmlType
  ∧ get_formatting_func_from_dataset (.dataset ⟨demoConvMismatchFeatures⟩)
      = (none, []) :=
  ⟨by decide, by decide, by decide,
    c1_conversations_guard ⟨demoConvMismatchFeatures⟩ (FeatureType.value "string")
      (by decide) (by decide) (by decide)⟩

/-- C3: whenever the schema's `messages` field has exactly the chatml type,
the matcher returns the conversations formatter bound to `messages` together
with its log line; the result is fixed at the first check, so no later check
can change it. -/
theorem c3_messages_first_match (d : Dataset)
    (h : featuresGet d.features "messages" = some chatmlType) :
    get_formatting_func_from_dataset (.dataset d)
      = (some (FormatterChoice.conversations "messages"),
          ["Formatting dataset with chatml format"]) := by
  simp only [get_formatting_func_from_dataset]
  rw [if_pos h]

/-- C3 witness: even with a chatml-typed `conversations` field also present,
the matcher returns the formatter bound to `messages`. -/
theorem c3_witness :
    featuresGet demoMessagesAndConversations "messages" = some chatmlType
  ∧ get_formatting_func_from_dataset (.dataset ⟨demoMessagesAndConversations⟩)
      = (some (FormatterChoice.conversations "messages"),
          ["Formatting dataset with chatml format"]) :=
  ⟨by decide, c3_messages_first_match ⟨demoMessagesAndConversations⟩ (by decide)⟩

/-- C6: when none of the three templates matches — the `messages` and
`conversations` lookups do not yield the chatml type and the full schema
equals neither the instruction nor the source-target template — the matcher
returns absent with no log; and any non-`Dataset` input returns absent with
no log.  The embedding is a total function, so no error is raised. -/
theorem c6_no_match_returns_none :
    (∀ d : Dataset,
       featuresGet d.features "messages" ≠ some chatmlType →
       featuresGet d.features "conversations" ≠ some chatmlType →
       featuresEqDict d.features instructionFeatures = false →
       featuresEqDict d.features paddlenlpFeatures = false →
       get_formatting_func_from_dataset (.dataset d) = (none, []))
  ∧ (∀ tag : Nat, get_formatting_func_from_dataset (.notADataset tag) = (none, [])) := by
  constructor
  · intro d hm hc hi hp
    simp only [get_formatting_func_from_dataset]
    rw [if_neg hm]
    by_cases hcs : (featuresGet d.features "conversations").isSome = true
    · rw [if_pos hcs, if_neg hc]
    · rw [if_neg hcs, if_neg (by simp [hi]), if_neg (by simp [hp])]
  · intro tag
    rfl

/-- C6 witness: a one-column text schema and a non-`Dataset` object both
yield absent. -/
theorem c6_witness :
    get_formatting_func_from_dataset (.dataset ⟨demoUnknownFeatures⟩) = (none, [])
  ∧ get_formatting_func_from_dataset (.notADataset 0) = (none, []) :=
  ⟨c6_no_match_returns_none.1 ⟨demoUnknownFeatures⟩
      (by decide) (by decide) (by decide) (by decide),
    c6_no_match_returns_none.2 0⟩

/-- C7: the emitted log lines are fully determined by the matched path — one
chatml line for either conversations formatter, one instruction line for the
instruction formatter, and nothing for the source-target formatter or a
non-match. -/
theorem c7_log_emission (input : MatcherInput) :
    (get_formatting_func_from_dataset input).2
      = (match (get_formatting_func_from_dataset input).1 with
          | some (FormatterChoice.conversations _) =>
              ["Formatting dataset with chatml format"]
          | some FormatterChoice.instruction =>
              ["Formatting dataset with instruction format"]
          | some FormatterChoice.paddlenlp => []
          | none => ([] : List String)) := by
  cases input with
  | dataset d =>
    simp only [get_formatting_func_from_dataset]
    split_ifs <;> rfl
  | notADataset t => rfl

/-- C2 counterexample: a batched input of length N = 0 to the conversations
formatter yields an error (Python raises IndexError on `examples[field][0]`),
not a sequence of 0 rendered strings, so the claim fails at N = 0. -/
theorem c2_counterexample :
    conversations_formatting_function demoRender "messages" demoEmptyConv = none := rfl

/-- C2 (amended): every formatter maps a batched input of length N to exactly
the N renderings of its rows in input order — where for the conversations
formatter the batch must be nonempty (N ≥ 1, since N = 0 raises); the
instruction and source-target formatters accept N = 0 as well.  The output
list is a `map` over the input rows, so it has length N with the i-th entry
the rendering of the i-th row. -/
theorem c2_shape_preservation :
    (∀ (render : PyVal → Bool → String) (field : String) (ex : PyVal)
        (items : List PyVal),
        pyGet ex field = some (PyVal.list items) → items ≠ [] →
        (∀ x ∈ items, x.isList = true) →
        conversations_formatting_function render field ex
          = some (PyVal.list (items.map fun x => PyVal.str (render x false))))
  ∧ (∀ (render : PyVal → Bool → String) (ex : PyVal) (ps cs : List PyVal),
        pyGet ex "prompt" = some (PyVal.list ps) →
        pyGet ex "completion" = some (PyVal.list cs) →
        ps.length = cs.length →
        instructions_formatting_function render ex
          = some (PyVal.list ((ps.zip cs).map fun pc =>
              PyVal.str (render (convertedSample pc.1 pc.2) false))))
  ∧ (∀ (render : PyVal → Bool → String) (ex : PyVal) (ss ts : List PyVal),
        pyGet ex "src" = some (PyVal.list ss) →
        pyGet ex "tgt" = some (PyVal.list ts) →
        ss.length = ts.length →
        paddlenlp_instructions_formatting_function render ex
          = some (PyVal.list ((ss.zip ts).map fun st =>
              PyVal.str (render (convertedSample st.1 st.2) false)))) := by
  refine ⟨?_, ?_, ?_⟩
  · intro render field ex items hget hne hall
    cases items with
    | nil => exact absurd rfl hne
    | cons first rest =>
      exact conversations_formatting_batched render field ex first rest hget
        (hall first (List.mem_cons_self _ _))
  · intro render ex ps cs hp hc hlen
    exact instructions_formatting_batched render ex ps cs hp hc (le_of_eq hlen)
  · intro render ex ss ts hs ht hlen
    exact paddlenlp_formatting_batched render ex ss ts hs ht (le_of_eq hlen)

/-- C2 witness: each formatter applied to a concrete two-row batch yields the
two rendered strings. -/
theorem c2_witness :
    conversations_formatting_function demoRender "messages" demoConvBatch
      = some (PyVal.list [PyVal.str "TEXT", PyVal.str "TEXT"])
  ∧ instructions_formatting_function demoRender demoInstrBatch
      = some (PyVal.list [PyVal.str "TEXT", PyVal.str "TEXT"])
  ∧ paddlenlp_instructions_formatting_function demoRender demoPaddleBatch
      = some (PyVal.list [PyVal.str "TEXT", PyVal.str "TEXT"]) :=
  ⟨(c2_shape_preservation.1 demoRender "messages" demoConvBatch
      [PyVal.list [demoMsg], PyVal.list [demoMsg]] rfl (by simp) (by decide)).trans rfl,
   (c2_shape_preservation.2.1 demoRender demoInstrBatch
      [PyVal.str "a", PyVal.str "b"] [PyVal.str "x", PyVal.str "y"]
      rfl rfl rfl).trans rfl,
   (c2_shape_preservation.2.2 demoRender demoPaddleBatch
      [PyVal.str "a", PyVal.str "b"] [PyVal.str "x", PyVal.str "y"]
      rfl rfl rfl).trans rfl⟩

/-- C4: a dataset whose schema dict-equals the instruction template makes the
matcher return the instruction formatter, and on any batched input the
instruction formatter renders, at each index in order, the two-message
conversation of `prompt[i]` as the user and `completion[i]` as the
assistant. -/
theorem c4_instruction_formatter :
    (∀ d : Dataset, featuresEqDict d.features instructionFeatures = true →
       get_formatting_func_from_dataset (.dataset d)
         = (some FormatterChoice.instruction,
             ["Formatting dataset with instruction format"]))
  ∧ (∀ (render : PyVal → Bool → String) (ex : PyVal) (ps cs : List PyVal),
       pyGet ex "prompt" = some (PyVal.list ps) →
       pyGet ex "completion" = some (PyVal.list cs) →
       ps.length = cs.length →
       instructions_formatting_function render ex
         = some (PyVal.list ((ps.zip cs).map fun pc =>
             PyVal.str (render (convertedSample pc.1 pc.2) false)))) := by
  constructor
  · intro d h
    have hm : featuresGet d.features "messages" = none := by
      rw [featuresGet_eq_of_eqDict d.features instructionFeatures h "messages"]
      rfl
    have hc : featuresGet d.features "conversations" = none := by
      rw [featuresGet_eq_of_eqDict d.features instructionFeatures h "conversations"]
      rfl
    simp only [get_formatting_func_from_dataset]
    rw [if_neg (by simp [hm]), if_neg (by simp [hc]), if_pos h]
  · intro render ex ps cs hp hc hlen
    exact instructions_formatting_batched render ex ps cs hp hc (le_of_eq hlen)

/-- C4 witness: the instruction schema written in the opposite key order
still dict-equals the template and selects the instruction formatter, and the
formatter maps the two-row batch to its two renderings. -/
theorem c4_witness :
    get_formatting_func_from_dataset (.dataset ⟨demoInstrFeaturesReordered⟩)
      = (some FormatterChoice.instruction,
          ["Formatting dataset with instruction format"])
  ∧ instructions_formatting_function demoRender demoInstrBatch
      = some (PyVal.list
          [PyVal.str (demoRender (convertedSample (PyVal.str "a") (PyVal.str "x")) false),
           PyVal.str (demoRender (convertedSample (PyVal.str "b") (PyVal.str "y")) false)]) :=
  ⟨c4_instruction_formatter.1 ⟨demoInstrFeaturesReordered⟩ (by decide),
   (c4_instruction_formatter.2 demoRender demoInstrBatch
      [PyVal.str "a", PyVal.str "b"] [PyVal.str "x", PyVal.str "y"]
      rfl rfl rfl).trans rfl⟩

/-- C5: on a scalar input — `src` not a list — the source-target formatter
returns the single rendered string of the two-message conversation with the
`src` value as the user content and the `tgt` value as the assistant
content. -/
theorem c5_source_target_scalar (render : PyVal → Bool → String)
    (ex v w : PyVal) (hs : pyGet ex "src" = some v) (hv : v.isList = false)
    (ht : pyGet ex "tgt" = some w) :
    paddlenlp_instructions_formatting_function render ex
      = some (PyVal.str (render (convertedSample v w) false)) := by
  unfold paddlenlp_instructions_formatting_function
  cases v with
  | str s => simp [hs, ht]
  | dict e => simp [hs, ht]
  | list items => simp [PyVal.isList] at hv

/-- C5 witness: `{src: "hello", tgt: "hi"}` yields the single rendered
string. -/
theorem c5_witness :
    paddlenlp_instructions_formatting_function demoRender demoPaddleScalar
      = some (PyVal.str "TEXT") :=
  (c5_source_target_scalar demoRender demoPaddleScalar
    (PyVal.str "hello") (PyVal.str "hi") rfl rfl rfl).trans rfl

/-- C8: every renderer call made by every formatter passes `tokenize =
false`: two renderers that agree wherever `tokenize = false` (but may differ
arbitrarily when token output is requested) give every formatter identical
output on every input, so no call ever requests token IDs. -/
theorem c8_tokenize_false_only (r₁ r₂ : PyVal → Bool → String)
    (h : ∀ v, r₁ v false = r₂ v false) (field : String) (ex : PyVal) :
    conversations_formatting_function r₁ field ex
        = conversations_formatting_function r₂ field ex
  ∧ instructions_formatting_function r₁ ex = instructions_formatting_function r₂ ex
  ∧ paddlenlp_instructions_formatting_function r₁ ex
        = paddlenlp_instructions_formatting_function r₂ ex := by
  refine ⟨?_, ?_, ?_⟩
  · unfold conversations_formatting_function
    cases hg : pyGet ex field with
    | none => rfl
    | some v =>
      cases v with
      | str s => rfl
      | dict e => rfl
      | list items =>
        cases items with
        | nil => rfl
        | cons first rest =>
          by_cases hf : first.isList
          · simp [hf, h]
          · simp [hf, h]
  · unfold instructions_formatting_function
    cases hp : pyGet ex "prompt" with
    | none => rfl
    | some v =>
      cases v with
      | str s =>
        cases hc : pyGet ex "completion" with
        | none => rfl
        | some c => simp [h]
      | dict e =>
        cases hc : pyGet ex "completion" with
        | none => rfl
        | some c => simp [h]
      | list ps =>
        cases hc : pyGet ex "completion" with
        | none => rfl
        | some c =>
          refine congrArg (Option.map PyVal.list) (traverseOption_congr _ _ _ ?_)
          intro i hi
          cases ps.get? i <;> cases pyIndex c i <;> simp [h]
  · unfold paddlenlp_instructions_formatting_function
    cases hs : pyGet ex "src" with
    | none => rfl
    | some v =>
      cases v with
      | str s =>
        cases ht : pyGet ex "tgt" with
        | none => rfl
        | some t => simp [h]
      | dict e =>
        cases ht : pyGet ex "tgt" with
        | none => rfl
        | some t => simp [h]
      | list ss =>
        cases ht : pyGet ex "tgt" with
        | none => rfl
        | some t =>
          refine congrArg (Option.map PyVal.list) (traverseOption_congr _ _ _ ?_)
          intro i hi
          cases ss.get? i <;> cases pyIndex t i <;> simp [h]

/-- C8 witness: `demoRender` and `demoRenderB` agree at `tokenize = false`
and differ at `tokenize = true`, yet every formatter output coincides. -/
theorem c8_witness :
    conversations_formatting_function demoRender "messages" demoConvBatch
      = conversations_formatting_function demoRenderB "messages" demoConvBatch
  ∧ instructions_formatting_function demoRender demoConvBatch
      = instructions_formatting_function demoRenderB demoConvBatch
  ∧ paddlenlp_instructions_formatting_function demoRender demoConvBatch
      = paddlenlp_instructions_formatting_function demoRenderB demoConvBatch :=
  c8_tokenize_false_only demoRender demoRenderB (fun _ => rfl) "messages" demoConvBatch

/-- C9: batched-vs-scalar dispatch indexes element 0 of the bound field, so
an empty-sequence field makes the conversations formatter raise (modelled
`none`) instead of returning an empty sequence. -/
theorem c9_empty_batch_errors (render : PyVal → Bool → String) (field : String)
    (ex : PyVal) (h : pyGet ex field = some (PyVal.list [])) :
    conversations_formatting_function render field ex = none := by
  unfold conversations_formatting_function
  simp [h]

/-- C9 witness: the concrete empty `messages` batch errors. -/
theorem c9_witness :
    pyGet demoEmptyConv "messages" = some (PyVal.list [])
  ∧ conversations_formatting_function demoRender "messages" demoEmptyConv = none :=
  ⟨rfl, c9_empty_batch_errors demoRender "messages" demoEmptyConv rfl⟩

/-- C10: for batched input the pair formatters read the second field only at
indexes below the length of the first field — two inputs with the same
`prompt` whose `completion` values agree at every index below `len(prompt)`
produce identical output — and any successful batched output is a list whose
length is exactly the length of the first field.  Likewise for `src`/`tgt`. -/
theorem c10_bounded_second_field_dependence :
    (∀ (render : PyVal → Bool → String) (ps : List PyVal) (c₁ c₂ ex₁ ex₂ : PyVal),
        pyGet ex₁ "prompt" = some (PyVal.list ps) →
        pyGet ex₂ "prompt" = some (PyVal.list ps) →
        pyGet ex₁ "completion" = some c₁ →
        pyGet ex₂ "completion" = some c₂ →
        (∀ i, i < ps.length → pyIndex c₁ i = pyIndex c₂ i) →
        instructions_formatting_function render ex₁
          = instructions_formatting_function render ex₂)
  ∧ (∀ (render : PyVal → Bool → String) (ex : PyVal) (ps : List PyVal) (out : PyVal),
        pyGet ex "prompt" = some (PyVal.list ps) →
        instructions_formatting_function render ex = some out →
        ∃ rs : List PyVal, out = PyVal.list rs ∧ rs.length = ps.length)
  ∧ (∀ (render : PyVal → Bool → String) (ss : List PyVal) (t₁ t₂ ex₁ ex₂ : PyVal),
        pyGet ex₁ "src" = some (PyVal.list ss) →
        pyGet ex₂ "src" = some (PyVal.list ss) →
        pyGet ex₁ "tgt" = some t₁ →
        pyGet ex₂ "tgt" = some t₂ →
        (∀ i, i < ss.length → pyIndex t₁ i = pyIndex t₂ i) →
        paddlenlp_instructions_formatting_function render ex₁
          = paddlenlp_instructions_formatting_function render ex₂)
  ∧ (∀ (render : PyVal → Bool → String) (ex : PyVal) (ss : List PyVal) (out : PyVal),
        pyGet ex "src" = some (PyVal.list ss) →
        paddlenlp_instructions_formatting_function render ex = some out →
        ∃ rs : List PyVal, out = PyVal.list rs ∧ rs.length = ss.length) := by
  refine ⟨?_, ?_, ?_, ?_⟩
  · intro render ps c₁ c₂ ex₁ ex₂ hp₁ hp₂ hc₁ hc₂ hagree
    unfold instructions_formatting_function
    simp only [hp₁, hp₂, hc₁, hc₂]
    refine congrArg (Option.map PyVal.list) (traverseOption_congr _ _ _ ?_)
    intro i hi
    rw [hagree i (List.mem_range.mp hi)]
  · intro render ex ps out hp hout
    unfold instructions_formatting_function at hout
    simp only [hp] at hout
    cases hc : pyGet ex "completion" with
    | none => simp [hc] at hout
    | some c =>
      simp only [hc, Option.map_eq_some'] at hout
      obtain ⟨rs, htr, hrs⟩ := hout
      exact ⟨rs, hrs.symm,
        (traverseOption_length _ _ _ htr).trans (List.length_range _)⟩
  · intro render ss t₁ t₂ ex₁ ex₂ hs₁ hs₂ ht₁ ht₂ hagree
    unfold paddlenlp_instructions_formatting_function
    simp only [hs₁, hs₂, ht₁, ht₂]
    refine congrArg (Option.map PyVal.list) (traverseOption_congr _ _ _ ?_)
    intro i hi
    rw [hagree i (List.mem_range.mp hi)]
  · intro render ex ss out hs hout
    unfold paddlenlp_instructions_formatting_function at hout
    simp only [hs] at hout
    cases ht : pyGet ex "tgt" with
    | none => simp [ht] at hout
    | some t =>
      simp only [ht, Option.map_eq_some'] at hout
      obtain ⟨rs, htr, hrs⟩ := hout
      exact ⟨rs, hrs.symm,
        (traverseOption_length _ _ _ htr).trans (List.length_range _)⟩

/-- C10 witness: adding an extra `completion` (resp. `tgt`) entry past
`len(prompt)` (resp. `len(src)`) leaves the batched output unchanged, and
the successful outputs have the length of the first field. -/
theorem c10_witness :
    instructions_formatting_function demoRender demoInstrBatch
      = instructions_formatting_function demoRender demoInstrBatchLonger
  ∧ (∃ rs : List PyVal,
       PyVal.list [PyVal.str "TEXT", PyVal.str "TEXT"] = PyVal.list rs
         ∧ rs.length = 2)
  ∧ paddlenlp_instructions_formatting_function demoRender demoPaddleBatch
      = paddlenlp_instructions_formatting_function demoRender demoPaddleBatchLonger
  ∧ (∃ rs : List PyVal,
       PyVal.list [PyVal.str "TEXT", PyVal.str "TEXT"] = PyVal.list rs
         ∧ rs.length = 2) :=
  ⟨c10_bounded_second_field_dependence.1 demoRender
      [PyVal.str "a", PyVal.str "b"]
      (PyVal.list [PyVal.str "x", PyVal.str "y"])
      (PyVal.list [PyVal.str "x", PyVal.str "y", PyVal.str "EXTRA"])
      demoInstrBatch demoInstrBatchLonger rfl rfl rfl rfl
      (fun i hi => by
        have h2 : i < 2 := by simpa using hi
        interval_cases i <;> rfl),
   c10_bounded_second_field_dependence.2.1 demoRender demoInstrBatch
      [PyVal.str "a", PyVal.str "b"]
      (PyVal.list [PyVal.str "TEXT", PyVal.str "TEXT"]) rfl rfl,
   c10_bounded_second_field_dependence.2.2.1 demoRender
      [PyVal.str "a", PyVal.str "b"]
      (PyVal.list [PyVal.str "x", PyVal.str "y"])
      (PyVal.list [PyVal.str "x", PyVal.str "y", PyVal.str "EXTRA"])
      demoPaddleBatch demoPaddleBatchLonger rfl rfl rfl rfl
      (fun i hi => by
        have h2 : i < 2 := by simpa using hi
        interval_cases i <;> rfl),
   c10_bounded_second_field_dependence.2.2.2 demoRender demoPaddleBatch
      [PyVal.str "a", PyVal.str "b"]
      (PyVal.list [PyVal.str "TEXT", PyVal.str "TEXT"]) rfl rfl⟩

end DatasetFormatting
